import Mathlib

/-!
Verification of the example test suite in `src/TestStuff.c++`.

The repository is a single C++ file of annotated gtest example tests.  We
shallowly embed the suite: each test unit becomes a list of statements
(checks of either severity, or fixture-state mutations), fixtures become a
record of initial state, a setup hook and a teardown hook, and the external
runner's execution discipline (fresh fixture per test, fatal checks abort
the remainder of the unit) is modelled from the spec, since the testing
engine itself is not part of the repository's sources.  Numeric literals of
the C++ file are embedded as exact rationals; the outcomes proved below are
robust to that choice (every comparison is decided by a margin far larger
than double rounding error).
-/

/-- One statement of a test body over fixture state `σ`: either a check
(`fatal = true` for the ASSERT forms, `false` for the EXPECT forms) with a
Boolean condition evaluated on the current state, or a mutation of the
fixture state. -/
inductive Stmt (σ : Type) where
  | check (fatal : Bool) (cond : σ → Bool)
  | mutate (f : σ → σ)

/-- Modelled from the spec: the external engine runs the statements of a
test body in order; a failing stop-on-failure (ASSERT) check aborts the
remainder of the unit, while a failing record-and-continue (EXPECT) check is
recorded and execution proceeds.  Returns the results of the checks that
actually executed, in order, together with the final fixture state. -/
def runBody {σ : Type} (s : σ) : List (Stmt σ) → List Bool × σ
  | [] => ([], s)
  | Stmt.mutate f :: rest => runBody (f s) rest
  | Stmt.check fatal cond :: rest =>
      let r := cond s
      if fatal && !r then ([r], s)
      else
        let p := runBody s rest
        (r :: p.1, p.2)

/-- A fixture type: an initial (freshly constructed) state, a setup hook and
a teardown hook. -/
structure Fixture (σ : Type) where
  init : σ
  setUp : σ → σ
  tearDown : σ → σ

/-- Modelled from the spec: for each test unit the external runner
constructs a fresh fixture instance, calls the setup hook, runs the body,
then calls the teardown hook.  Returns the executed check results, the state
at the end of the body, and the state after teardown. -/
def runFixtureTest {σ : Type} (F : Fixture σ) (body : List (Stmt σ)) :
    List Bool × σ × σ :=
  let s0 := F.setUp F.init
  let p := runBody s0 body
  (p.1, p.2, F.tearDown p.2)

/-- Modelled from the spec: the runner executes a list of test bodies that
share a fixture type sequentially, instantiating the fixture fresh for each
one; the result is each unit's list of executed check results. -/
def runFixtureSuite {σ : Type} (F : Fixture σ) (bodies : List (List (Stmt σ))) :
    List (List Bool) :=
  bodies.map fun b => (runFixtureTest F b).1

/-- Modelled from the spec: an ASSERT_EQ / EXPECT_EQ check on integers
passes when expected equals actual, and on mismatch its failure report
carries the expected value and the actual value. -/
def eqCheck (expected actual : Int) : Bool × Option (Int × Int) :=
  if expected = actual then (true, none) else (false, some (expected, actual))

/-- Modelled from the spec: ASSERT_NEAR passes when the absolute difference
of the two values is within the caller-specified tolerance. -/
def nearCheck (a b tol : ℚ) : Bool := decide (|a - b| ≤ tol)

/-- Modelled from the spec: ASSERT_FLOAT_EQ / ASSERT_DOUBLE_EQ compare with
a fixed four-decimal tolerance (the source comments: these macros measure
equality to four decimal places). -/
def floatEqCheck (a b : ℚ) : Bool := decide (|a - b| ≤ 1 / 10000)

/-- ASSERT_STREQ: content equality of two character strings. -/
def strEqCheck (a b : String) : Bool := a == b

/-- ASCII lower-casing of one character, as C `tolower` does on the ASCII
letters compared by `strcasecmp`. -/
def lowerChar (c : Char) : Char :=
  if 65 ≤ c.toNat ∧ c.toNat ≤ 90 then Char.ofNat (c.toNat + 32) else c

/-- ASSERT_STRCASEEQ: content equality ignoring case. -/
def strCaseEqCheck (a b : String) : Bool :=
  a.data.map lowerChar == b.data.map lowerChar

/-- `std::equal(first1, last1, first2)` on integer ranges: pairwise
comparison across the full length of the first range. -/
def stdEqual : List Int → List Int → Bool
  | [], _ => true
  | _ :: _, [] => false
  | a :: as, b :: bs => a == b && stdEqual as bs

/-- The `VectorTest` fixture's `SetUp`: push_back 0, 1, 2 onto `v`. -/
def VectorTest.SetUp (v : List Int) : List Int := ((v ++ [0]) ++ [1]) ++ [2]

/-- The `VectorTest` fixture's `TearDown`: does nothing. -/
def VectorTest.TearDown (v : List Int) : List Int := v

/-- The `VectorTest` fixture: member `v` starts empty (default-constructed
`std::vector<int>`), with the hooks above. -/
def vectorTestFixture : Fixture (List Int) :=
  ⟨[], VectorTest.SetUp, VectorTest.TearDown⟩

/-- Body of `TEST_F(VectorTest, SampleVectorTest)`:
`ASSERT_EQ(3, v.size())` then `EXPECT_EQ(i, v[i])` for `i = 0, 1, 2`.
Element access is embedded totally via `List.get?`. -/
def sampleVectorTestBody : List (Stmt (List Int)) :=
  [ Stmt.check true (fun v => (3 : Nat) == v.length),
    Stmt.check false (fun v => v.get? 0 == some 0),
    Stmt.check false (fun v => v.get? 1 == some 1),
    Stmt.check false (fun v => v.get? 2 == some 2) ]

/-- Body of `TEST_F(VectorTest, SecondVectorTest)`:
`EXPECT_EQ(4, v.size())` then `ASSERT_EQ(3, v.size())`. -/
def secondVectorTestBody : List (Stmt (List Int)) :=
  [ Stmt.check false (fun v => (4 : Nat) == v.length),
    Stmt.check true (fun v => (3 : Nat) == v.length) ]

/-- Body of `TEST(SampleTestCase, SampleTest)`: `ASSERT_EQ(1, 1)`. -/
def sampleTestBody : List (Stmt Unit) :=
  [ Stmt.check true (fun _ => (eqCheck 1 1).1) ]

/-- Body of `TEST(SampleTestCase, AnotherTest)`: `ASSERT_EQ(2, 2)`. -/
def anotherTestBody : List (Stmt Unit) :=
  [ Stmt.check true (fun _ => (eqCheck 2 2).1) ]

/-- Body of `TEST(OtherTestCase, SampleTest)`: `ASSERT_EQ(2, 2)`. -/
def otherSampleTestBody : List (Stmt Unit) :=
  [ Stmt.check true (fun _ => (eqCheck 2 2).1) ]

/-- Body of `TEST(OtherTestCase, SampleTestFail)`: `ASSERT_EQ(1, 2)`. -/
def sampleTestFailBody : List (Stmt Unit) :=
  [ Stmt.check true (fun _ => (eqCheck 1 2).1) ]

/-- Body of `TEST(AssertionTypes, ShowAssertionTypes)`: the sixteen ASSERT
checks of lines 158-197 of the source, in order. -/
def showAssertionTypesBody : List (Stmt Unit) :=
  [ Stmt.check true (fun _ => true),
    Stmt.check true (fun _ => !false),
    Stmt.check true (fun _ => (eqCheck 1 1).1),
    Stmt.check true (fun _ => !((1 : Int) == 2)),
    Stmt.check true (fun _ => decide ((1 : Int) < 2)),
    Stmt.check true (fun _ => decide ((1 : Int) ≤ 2)),
    Stmt.check true (fun _ => decide ((2 : Int) > 1)),
    Stmt.check true (fun _ => decide ((2 : Int) ≥ 1)),
    Stmt.check true (fun _ => floatEqCheck 2.0 2.0),
    Stmt.check true (fun _ => floatEqCheck 2.0 2.0),
    Stmt.check true (fun _ => floatEqCheck 2.00001 2.000011),
    Stmt.check true (fun _ => nearCheck 2.00001 2.000011 0.0000001),
    Stmt.check true (fun _ => strEqCheck "hi" "hi"),
    Stmt.check true (fun _ => !(strEqCheck "hi" "hello")),
    Stmt.check true (fun _ => strCaseEqCheck "hi" "HI"),
    Stmt.check true (fun _ => !(strCaseEqCheck "HI" "Hey")) ]

/-- The `ArrayEquals` fixture's member array `v = (1, 2, 3)`. -/
def ArrayEquals.v : List Int := [1, 2, 3]

/-- Body of `TEST_F(ArrayEquals, ArrayEqualsTest)`: with local array
`w = (1, 2, 3)`, `ASSERT_TRUE(std::equal(w, w + 3, v))`. -/
def arrayEqualsTestBody : List (Stmt Unit) :=
  [ Stmt.check true (fun _ => stdEqual [1, 2, 3] ArrayEquals.v) ]

/-- A registered test unit: its group name, its own name, and the results
of the checks it executes when the suite runs. -/
structure TestCase where
  group : String
  name : String
  results : List Bool

/-- Modelled from the spec: a unit passes when every executed check passed;
a record-and-continue mismatch also marks the unit failed. -/
def TestCase.passed (t : TestCase) : Bool := t.results.all id

def SampleTestCase_SampleTest : TestCase :=
  ⟨"SampleTestCase", "SampleTest", (runBody () sampleTestBody).1⟩

def SampleTestCase_AnotherTest : TestCase :=
  ⟨"SampleTestCase", "AnotherTest", (runBody () anotherTestBody).1⟩

def OtherTestCase_SampleTest : TestCase :=
  ⟨"OtherTestCase", "SampleTest", (runBody () otherSampleTestBody).1⟩

def OtherTestCase_SampleTestFail : TestCase :=
  ⟨"OtherTestCase", "SampleTestFail", (runBody () sampleTestFailBody).1⟩

def VectorTest_SampleVectorTest : TestCase :=
  ⟨"VectorTest", "SampleVectorTest",
    (runFixtureTest vectorTestFixture sampleVectorTestBody).1⟩

def VectorTest_SecondVectorTest : TestCase :=
  ⟨"VectorTest", "SecondVectorTest",
    (runFixtureTest vectorTestFixture secondVectorTestBody).1⟩

def AssertionTypes_ShowAssertionTypes : TestCase :=
  ⟨"AssertionTypes", "ShowAssertionTypes", (runBody () showAssertionTypesBody).1⟩

def ArrayEquals_ArrayEqualsTest : TestCase :=
  ⟨"ArrayEquals", "ArrayEqualsTest", (runBody () arrayEqualsTestBody).1⟩

/-- All eight test units of `TestStuff.c++`, in registration order. -/
def suite : List TestCase :=
  [ SampleTestCase_SampleTest,
    SampleTestCase_AnotherTest,
    OtherTestCase_SampleTest,
    OtherTestCase_SampleTestFail,
    VectorTest_SampleVectorTest,
    VectorTest_SecondVectorTest,
    AssertionTypes_ShowAssertionTypes,
    ArrayEquals_ArrayEqualsTest ]

/-! Helper lemmas evaluating the individual checks and test units.  The
rational and string checks do not reduce by kernel computation, so they are
settled here once and used to evaluate the bodies by rewriting. -/

theorem floatEqCheck_same : floatEqCheck 2.0 2.0 = true := by
  simp [floatEqCheck]

theorem floatEqCheck_close : floatEqCheck 2.00001 2.000011 = true := by
  simp [floatEqCheck, abs_sub_le_iff]
  norm_num

theorem nearCheck_far : nearCheck 2.00001 2.000011 0.0000001 = false := by
  simp [nearCheck, abs_sub_le_iff]
  norm_num

theorem strEq_hi_hi : strEqCheck "hi" "hi" = true := by decide

theorem strEq_hi_hello : strEqCheck "hi" "hello" = false := by decide

theorem strCase_hi_HI : strCaseEqCheck "hi" "HI" = true := by decide

theorem strCase_HI_Hey : strCaseEqCheck "HI" "Hey" = false := by decide

theorem showAssertionTypes_results :
    (runBody () showAssertionTypesBody).1 =
      [true, true, true, true, true, true, true, true, true, true, true, false] := by
  simp [showAssertionTypesBody, runBody, eqCheck, floatEqCheck_same, floatEqCheck_close,
    nearCheck_far, strEq_hi_hi, strEq_hi_hello, strCase_hi_HI, strCase_HI_Hey]

theorem sampleVectorTest_results :
    (runFixtureTest vectorTestFixture sampleVectorTestBody).1 = [true, true, true, true] := by
  decide

theorem secondVectorTest_results :
    (runFixtureTest vectorTestFixture secondVectorTestBody).1 = [false, true] := by
  decide

theorem suite_passed_map :
    suite.map TestCase.passed = [true, true, true, false, true, false, false, true] := by
  simp [suite, TestCase.passed, SampleTestCase_SampleTest, SampleTestCase_AnotherTest,
    OtherTestCase_SampleTest, OtherTestCase_SampleTestFail, VectorTest_SampleVectorTest,
    VectorTest_SecondVectorTest, AssertionTypes_ShowAssertionTypes, ArrayEquals_ArrayEqualsTest,
    showAssertionTypes_results, sampleVectorTest_results, secondVectorTest_results]
  decide

theorem suite_failures :
    (suite.filter fun t => !t.passed).map (fun t => (t.group, t.name)) =
      [("OtherTestCase", "SampleTestFail"), ("VectorTest", "SecondVectorTest"),
       ("AssertionTypes", "ShowAssertionTypes")] := by
  simp [suite, TestCase.passed, SampleTestCase_SampleTest, SampleTestCase_AnotherTest,
    OtherTestCase_SampleTest, OtherTestCase_SampleTestFail, VectorTest_SampleVectorTest,
    VectorTest_SecondVectorTest, AssertionTypes_ShowAssertionTypes, ArrayEquals_ArrayEqualsTest,
    showAssertionTypes_results, sampleVectorTest_results, secondVectorTest_results]
  decide

/-- A test body that mutates the shared fixture member (a push_back of 3),
used as a concrete prior unit when instantiating the isolation theorem. -/
def pushOneBody : List (Stmt (List Int)) := [Stmt.mutate fun v => v ++ [3]]

/-- Claim C1: test units sharing the VectorTest fixture are isolated: the
runner gives each a fresh instance, so the results of any two consecutive
units are each determined by that unit's own body alone; the fixture state
at entry to every body is the SetUp result of a fresh instance, namely
the list 0, 1, 2, and hence SecondVectorTest observes size 3, its non-fatal
size-4 check fails, and the subsequent fatal size-3 check executes and
passes: its results are the list false, true. -/
theorem vectorTest_units_isolated (b1 b2 : List (Stmt (List Int))) :
    runFixtureSuite vectorTestFixture [b1, b2] =
      [(runFixtureTest vectorTestFixture b1).1, (runFixtureTest vectorTestFixture b2).1] ∧
    vectorTestFixture.setUp vectorTestFixture.init = [0, 1, 2] ∧
    (runFixtureTest vectorTestFixture secondVectorTestBody).1 = [false, true] :=
  ⟨rfl, rfl, secondVectorTest_results⟩

/-- Witness for C1: instantiated with a prior unit that mutates its fixture
instance (pushing a fourth element), SecondVectorTest still sees the fresh
state and produces results false, true. -/
theorem vectorTest_units_isolated_witness :
    (runFixtureSuite vectorTestFixture [pushOneBody, secondVectorTestBody] =
      [(runFixtureTest vectorTestFixture pushOneBody).1,
       (runFixtureTest vectorTestFixture secondVectorTestBody).1] ∧
    vectorTestFixture.setUp vectorTestFixture.init = [0, 1, 2] ∧
    (runFixtureTest vectorTestFixture secondVectorTestBody).1 = [false, true]) :=
  vectorTest_units_isolated pushOneBody secondVectorTestBody

/-- Claim C2: a failing stop-on-failure (ASSERT) check aborts the rest of
its unit, while a failing record-and-continue (EXPECT) check lets the
following checks of the same unit run; concretely, ShowAssertionTypes has
sixteen checks but only the first twelve execute (the failing ASSERT_NEAR is
the twelfth, so none of the four string checks after it ever runs),
SecondVectorTest's failing EXPECT is followed by its passing ASSERT, and the
unit registered after ShowAssertionTypes still runs and passes. -/
theorem assert_aborts_expect_continues {σ : Type} (s : σ) (cond : σ → Bool)
    (rest : List (Stmt σ)) (h : cond s = false) :
    (runBody s (Stmt.check true cond :: rest)).1 = [false] ∧
    (runBody s (Stmt.check false cond :: rest)).1 = false :: (runBody s rest).1 ∧
    showAssertionTypesBody.length = 16 ∧
    (runBody () showAssertionTypesBody).1 =
      [true, true, true, true, true, true, true, true, true, true, true, false] ∧
    (runFixtureTest vectorTestFixture secondVectorTestBody).1 = [false, true] ∧
    ArrayEquals_ArrayEqualsTest.passed = true := by
  refine ⟨by simp [runBody, h], by simp [runBody, h], by decide,
    showAssertionTypes_results, secondVectorTest_results, by decide⟩

/-- Witness for C2 at the failing condition constantly false on the unit
state, with an empty remainder. -/
theorem assert_aborts_expect_continues_witness :
    ((fun _ : Unit => false) () = false) ∧
    ((runBody () (Stmt.check true (fun _ : Unit => false) :: [])).1 = [false] ∧
     (runBody () (Stmt.check false (fun _ : Unit => false) :: [])).1 =
       false :: (runBody () ([] : List (Stmt Unit))).1 ∧
     showAssertionTypesBody.length = 16 ∧
     (runBody () showAssertionTypesBody).1 =
       [true, true, true, true, true, true, true, true, true, true, true, false] ∧
     (runFixtureTest vectorTestFixture secondVectorTestBody).1 = [false, true] ∧
     ArrayEquals_ArrayEqualsTest.passed = true) :=
  ⟨rfl, assert_aborts_expect_continues () (fun _ => false) [] rfl⟩

/-- Claim C3: the check ASSERT_NEAR(2.00001, 2.000011, 0.0000001) fails,
because the absolute difference of the two values (one millionth) exceeds
the explicit tolerance of one ten-millionth; consequently the
ShowAssertionTypes unit is reported failed. -/
theorem assertNear_tolerance_fails :
    nearCheck 2.00001 2.000011 0.0000001 = false ∧
    0.0000001 < |(2.00001 : ℚ) - 2.000011| ∧
    AssertionTypes_ShowAssertionTypes.passed = false := by
  refine ⟨nearCheck_far, ?_, ?_⟩
  · rw [lt_abs]
    right
    norm_num
  · simp [AssertionTypes_ShowAssertionTypes, TestCase.passed, showAssertionTypes_results]

/-- Claim C4: the implicit-tolerance floating-point equality check compares
with a fixed four-decimal tolerance, and ASSERT_FLOAT_EQ(2.00001, 2.000011)
passes since the two values differ by one millionth, within that
tolerance. -/
theorem assertFloatEq_fourDecimal_passes :
    floatEqCheck 2.00001 2.000011 = true ∧
    |(2.00001 : ℚ) - 2.000011| ≤ 1 / 10000 := by
  refine ⟨floatEqCheck_close, ?_⟩
  rw [abs_sub_le_iff]
  constructor <;> norm_num

/-- Claim C5: every unit of the VectorTest fixture enters its body in the
state 0, 1, 2 produced by SetUp on a fresh instance; in SampleVectorTest
the fatal size-3 check passes and the three element checks all pass, so its
results are four trues and the unit passes. -/
theorem sampleVectorTest_passes :
    vectorTestFixture.setUp vectorTestFixture.init = [0, 1, 2] ∧
    (runFixtureTest vectorTestFixture sampleVectorTestBody).1 = [true, true, true, true] ∧
    VectorTest_SampleVectorTest.passed = true :=
  ⟨rfl, sampleVectorTest_results, by decide⟩

/-- Claim C6: ASSERT_EQ(1, 2) fails and its report carries expected value 1
and actual value 2; the failure aborts only the SampleTestFail unit, while
every other registered unit still runs to its own outcome (the suite-wide
outcome list has an entry for all eight units). -/
theorem sampleTestFail_reports_expected_actual :
    eqCheck 1 2 = (false, some (1, 2)) ∧
    OtherTestCase_SampleTestFail.passed = false ∧
    suite.map TestCase.passed = [true, true, true, false, true, false, false, true] :=
  ⟨by decide, by decide, suite_passed_map⟩

/-- Claim C7: the element-by-element comparison of the local array
1, 2, 3 against the fixture member array 1, 2, 3 over all three positions
reports the arrays equal, so the single ASSERT_TRUE of ArrayEqualsTest
passes and the unit passes. -/
theorem arrayEqualsTest_passes :
    stdEqual [1, 2, 3] ArrayEquals.v = true ∧
    ArrayEquals_ArrayEqualsTest.results = [true] ∧
    ArrayEquals_ArrayEqualsTest.passed = true := by decide

/-- Counterexample to claim C8: the failing units of the suite are not just
OtherTestCase.SampleTestFail: SecondVectorTest (failing EXPECT) and
ShowAssertionTypes (failing ASSERT_NEAR) are also reported failed. -/
theorem suite_single_failure_refuted :
    ¬ ((suite.filter fun t => !t.passed).map (fun t => (t.group, t.name)) =
        [("OtherTestCase", "SampleTestFail")]) := by
  simp [suite_failures]

/-- Claim C8 (amended): exactly three test units fail, in registration
order OtherTestCase.SampleTestFail, VectorTest.SecondVectorTest and
AssertionTypes.ShowAssertionTypes, and every other registered unit passes;
in particular SampleTestCase.SampleTest with ASSERT_EQ(1, 1) passes. -/
theorem suite_exactly_three_failures :
    (suite.filter fun t => !t.passed).map (fun t => (t.group, t.name)) =
      [("OtherTestCase", "SampleTestFail"), ("VectorTest", "SecondVectorTest"),
       ("AssertionTypes", "ShowAssertionTypes")] ∧
    SampleTestCase_SampleTest.passed = true :=
  ⟨suite_failures, by decide⟩

/-- Claim C9: the VectorTest TearDown hook performs no operation: on every
state it is the identity, and for both units of the fixture the state after
teardown equals the state at the end of the body. -/
theorem tearDown_frame (v : List Int) :
    VectorTest.TearDown v = v ∧
    (runFixtureTest vectorTestFixture sampleVectorTestBody).2.2 =
      (runFixtureTest vectorTestFixture sampleVectorTestBody).2.1 ∧
    (runFixtureTest vectorTestFixture secondVectorTestBody).2.2 =
      (runFixtureTest vectorTestFixture secondVectorTestBody).2.1 :=
  ⟨rfl, rfl, rfl⟩

/-- Witness for C9 at the state 0, 1, 2. -/
theorem tearDown_frame_witness :
    VectorTest.TearDown [0, 1, 2] = [0, 1, 2] ∧
    (runFixtureTest vectorTestFixture sampleVectorTestBody).2.2 =
      (runFixtureTest vectorTestFixture sampleVectorTestBody).2.1 ∧
    (runFixtureTest vectorTestFixture secondVectorTestBody).2.2 =
      (runFixtureTest vectorTestFixture secondVectorTestBody).2.1 :=
  tearDown_frame [0, 1, 2]

/-- Claim C10: in SampleVectorTest the element accesses are reached only
after the fatal size-3 check has succeeded: on any state of size 3 every
accessed index is in bounds (each lookup returns a value), on any state
failing the size check the body aborts after that single check and no
access is reached, and on the actual post-setup state all four checks
execute. -/
theorem sampleVectorTest_accesses_in_bounds (s : List Int) (h : (3 : Nat) = s.length) :
    ((s.get? 0).isSome ∧ (s.get? 1).isSome ∧ (s.get? 2).isSome) ∧
    (∀ s2 : List Int, ((3 : Nat) == s2.length) = false →
        (runBody s2 sampleVectorTestBody).1 = [false]) ∧
    (runBody (vectorTestFixture.setUp vectorTestFixture.init) sampleVectorTestBody).1.length = 4 := by
  refine ⟨?_, ?_, by decide⟩
  · have h3 : s.length = 3 := h.symm
    rw [List.length_eq_three] at h3
    obtain ⟨a, b, c, rfl⟩ := h3
    exact ⟨rfl, rfl, rfl⟩
  · intro s2 h2
    simp [sampleVectorTestBody, runBody, h2]

/-- Witness for C10 at the state 0, 1, 2, which has size 3. -/
theorem sampleVectorTest_accesses_in_bounds_witness :
    ((3 : Nat) = ([0, 1, 2] : List Int).length) ∧
    (((([0, 1, 2] : List Int).get? 0).isSome ∧
      (([0, 1, 2] : List Int).get? 1).isSome ∧
      (([0, 1, 2] : List Int).get? 2).isSome) ∧
     (∀ s2 : List Int, ((3 : Nat) == s2.length) = false →
        (runBody s2 sampleVectorTestBody).1 = [false]) ∧
     (runBody (vectorTestFixture.setUp vectorTestFixture.init) sampleVectorTestBody).1.length = 4) :=
  ⟨by decide, sampleVectorTest_accesses_in_bounds [0, 1, 2] (by decide)⟩
